import Mathlib

/-!
Verification of the LivePulse dashboard core (src/dashboard.py) against its
natural-language specification.

The dashboard is a single Python file.  The parts relevant to the claims are:

* `load_data` (lines 179-191): a function decorated with
  `@st.cache_data(ttl=300)` that selects all rows of the `articles` table
  from the remote store, returning a dataframe of the rows, or an empty
  dataframe (after displaying an error) when the fetch raises.
* the refresh button (lines 213-215): `st.cache_data.clear()` followed by a
  rerun.
* the data-selection logic of `main` (lines 226-236): use the cached table
  if non-empty, otherwise parse an uploaded CSV if one is present,
  otherwise show "No data available" and stop.
* the Articles tab filter (lines 382-394): three multiselect widgets whose
  selections become pandas `.isin` masks over `sentiment`, `source` and
  `topic`, combined with `&`.
* the Articles tab rendering (line 396): `filtered_df.head(20)`.

The embedding below models rows as `Article` records (the columns the
claims touch), dataframes as ordered lists of rows, and the effects of the
external libraries (the Streamlit cache decorator, pandas `read_csv`) as
explicit Lean functions, each documented at its definition.
-/

/-- One row of the `articles` dataframe, restricted to the columns the
claims are about (title, source, topic, sentiment; all text columns in the
remote store). -/
structure Article where
  title : String
  source : String
  topic : String
  sentiment : String
  deriving DecidableEq, Repr

/-- The body of `load_data` (src/dashboard.py lines 180-191) as a function
of the outcome of the remote select.  On a successful select it returns
the rows as a dataframe (an empty dataframe when there are no rows); when
the select raises, it displays an error (`st.error`, recorded as the `Bool`
component) and returns an empty dataframe.  The `published_date` column
conversion is dropped: that column plays no part in any claim. -/
def load_data (fetch : Except String (List Article)) : List Article × Bool :=
  match fetch with
  | .ok rows => (rows, false)
  | .error _ => ([], true)

/-- State of the process-wide cache produced by the `@st.cache_data(ttl=300)`
decorator on `load_data` (src/dashboard.py line 179): the cached return
value with the time it was captured, or nothing. -/
structure CacheState where
  entry : Option (List Article × Nat)
  deriving DecidableEq, Repr

/-- The TTL passed to the cache decorator at src/dashboard.py line 179. -/
def TTL : Nat := 300

/-- Result of one call to the cached `load_data`: the returned table, the
cache state after the call, whether the call executed the body (issued a
remote fetch), and whether an error message was displayed. -/
structure GetResult where
  value : List Article
  state : CacheState
  fetched : Bool
  errorShown : Bool
  deriving DecidableEq, Repr

/-- Modelled from the spec: the cache produced by `@st.cache_data(ttl=300)`
(src/dashboard.py line 179) is library code not present in the repository;
the spec describes its contract as `get(now)`: return the cached table if
`now - entry.capturedAt < TTL`, otherwise execute the body once (issuing
exactly one remote fetch, whose outcome at time `now` is `fetch now`) and
cache its return value.  A failed fetch caches the empty table `load_data`
returns. -/
def cache_get (fetch : Nat → Except String (List Article))
    (s : CacheState) (now : Nat) : GetResult :=
  match s.entry with
  | some (v, t) =>
      if now - t < TTL then ⟨v, s, false, false⟩
      else
        let r := load_data (fetch now)
        ⟨r.1, ⟨some (r.1, now)⟩, true, r.2⟩
  | none =>
      let r := load_data (fetch now)
      ⟨r.1, ⟨some (r.1, now)⟩, true, r.2⟩

/-- Modelled from the spec: `st.cache_data.clear()` (src/dashboard.py
line 214, the refresh button) empties the cache, so the next call to
`load_data` re-executes the body regardless of TTL. -/
def cache_clear (_s : CacheState) : CacheState := ⟨none⟩

/-- Splitting a line at commas, character by character: `acc` holds the
characters of the current field in reverse. -/
def splitCommaAux : List Char → List Char → List String
  | [], acc => [String.mk acc.reverse]
  | c :: cs, acc =>
      if c = ',' then String.mk acc.reverse :: splitCommaAux cs []
      else splitCommaAux cs (c :: acc)

/-- The comma-separated fields of one line of a delimited file. -/
def splitComma (line : String) : List String :=
  splitCommaAux line.data []

/-- Modelled from the spec: `pd.read_csv` (applied to the uploaded file at
src/dashboard.py line 229) is library code not present in the repository.
It is a generic delimited parser: the first line is the header naming the
columns, each further line is a row pairing header names with fields; a
row with more fields than the header is a structural parse error.  The
call site passes only the file, so the parser receives no list of required
columns and performs no column validation. -/
def parseRows (cols : List String) :
    List String → Except String (List (List (String × String)))
  | [] => .ok []
  | line :: rest =>
      let fields := splitComma line
      if cols.length < fields.length then
        .error "ParserError: too many fields"
      else
        match parseRows cols rest with
        | .ok ts => .ok (cols.zip fields :: ts)
        | .error e => .error e

/-- The whole-file parse: header line then data rows (see `parseRows`). -/
def read_csv (file : List String) : Except String (List (List (String × String))) :=
  match file with
  | [] => .error "EmptyDataError: no columns to parse from file"
  | header :: rows => parseRows (splitComma header) rows

/-- Whether a parse produced a table (no error raised). -/
def parseSucceeds (r : Except String (List (List (String × String)))) : Bool :=
  match r with
  | .ok _ => true
  | .error _ => false

/-- The required columns named by the spec for a local upload. -/
def requiredCols : List String := ["title", "source", "topic", "sentiment"]

/-- The data-selection logic of `main` (src/dashboard.py lines 226-236):
take the table `load_data` returned; if it is empty and a file was
uploaded, read the uploaded file and use its rows instead; if it is empty
and no file was uploaded, show "No data available" and stop (modelled as
the empty table).  The `Bool` records whether the uploaded file was read.
`uploaded` is the parse of the uploaded file when one is present. -/
def selectData (cached : List Article) (uploaded : Option (List Article)) :
    List Article × Bool :=
  if cached.isEmpty then
    match uploaded with
    | some rows => (rows, true)
    | none => ([], false)
  else (cached, false)

/-- The row predicate of the Articles tab filter (src/dashboard.py
lines 390-394): pandas `.isin` membership of the row's `sentiment`,
`source` and `topic` in the respective multiselect selections, the three
masks combined with `&`. -/
def rowPred (sentiment_filter source_filter topic_filter : List String)
    (r : Article) : Bool :=
  sentiment_filter.contains r.sentiment
    && source_filter.contains r.source
    && topic_filter.contains r.topic

/-- `filtered_df` (src/dashboard.py lines 390-394): the rows of `df`
satisfying all three `.isin` masks, in their original order (a boolean-mask
selection preserves row order). -/
def filtered_df (df : List Article)
    (sentiment_filter source_filter topic_filter : List String) : List Article :=
  df.filter (rowPred sentiment_filter source_filter topic_filter)

/-- The rows the Articles tab renders (src/dashboard.py line 396):
`filtered_df.head(20)`, the first 20 rows of the filtered table. -/
def articlesTabRows (filtered : List Article) : List Article :=
  filtered.take 20

/-- Concrete articles used by the spec's concrete filter example. -/
def stormRow : Article := ⟨"Storm hits coast", "BBC", "Weather", "Negative"⟩

def rallyRow : Article := ⟨"Markets rally", "CNN", "Finance", "Positive"⟩

/-- C5 counterexample: applying the filter with all three selection sets
empty to a one-row table returns the empty table, not the input unchanged:
pandas `.isin([])` is false for every row, so empty selections filter
everything out rather than imposing no filtering. -/
theorem C5_counterexample :
    filtered_df [stormRow] [] [] [] = [] ∧
    filtered_df [stormRow] [] [] [] ≠ [stormRow] := by
  decide

/-- C5 (amended): an empty selection on any of the three axes excludes
every row — the filter with an empty sentiment, source or topic set
returns the empty table, never the input unchanged (on a non-empty
input). -/
theorem C5_empty_set_excludes_all (df : List Article) (s t u : List String)
    (h : s = [] ∨ t = [] ∨ u = []) : filtered_df df s t u = [] := by
  rcases h with h | h | h <;> subst h <;>
    simp [filtered_df, List.filter_eq_nil, rowPred]

/-- C5 witness: the amended theorem applied at a concrete input with a
non-empty sentiment selection but empty source selection. -/
theorem C5_empty_set_excludes_all_witness :
    filtered_df [stormRow, rallyRow] ["Negative"] [] ["Weather"] = [] :=
  C5_empty_set_excludes_all [stormRow, rallyRow] ["Negative"] [] ["Weather"]
    (Or.inr (Or.inl rfl))

/-- C6 counterexample: on the spec's two-row table, criteria with
sentiments `{"Negative"}` and empty source and topic sets return the
empty table, not the first row: there is no search-text predicate in the
code, and the empty source set already excludes every row. -/
theorem C6_counterexample :
    filtered_df [stormRow, rallyRow] ["Negative"] [] [] = [] ∧
    filtered_df [stormRow, rallyRow] ["Negative"] [] [] ≠ [stormRow] := by
  decide

/-- C6 (amended): the filter is the conjunction of the three set-membership
predicates only (no search text exists in the code); on the spec's two-row
table it returns exactly the first row once the source and topic
selections contain the rows' values, and the sentiment predicate alone is
what excludes the second row. -/
theorem C6_and_semantics :
    filtered_df [stormRow, rallyRow] ["Negative"]
      ["BBC", "CNN"] ["Weather", "Finance"] = [stormRow] ∧
    filtered_df [stormRow, rallyRow] ["Negative", "Positive"]
      ["BBC", "CNN"] ["Weather", "Finance"] = [stormRow, rallyRow] := by
  decide

/-- C7: the filter is idempotent — applying the same criteria a second
time to the filter's own output changes nothing, for every table and all
criteria. -/
theorem C7_filter_idempotent (df : List Article) (s t u : List String) :
    filtered_df (filtered_df df s t u) s t u = filtered_df df s t u := by
  simp [filtered_df, List.filter_filter]

/-- C8: the uploaded file is read only when the cached table is empty —
whenever `load_data` returned a non-empty table, `main` uses exactly that
table, the upload-read flag is false, and nothing is merged. -/
theorem C8_upload_only_when_cache_empty (cached : List Article)
    (uploaded : Option (List Article)) (h : cached ≠ []) :
    selectData cached uploaded = (cached, false) := by
  simp [selectData, h]

/-- C8 witness: a non-empty cached table with an upload present — the
upload is ignored. -/
theorem C8_upload_only_when_cache_empty_witness :
    selectData [stormRow] (some [rallyRow]) = ([stormRow], false) :=
  C8_upload_only_when_cache_empty [stormRow] (some [rallyRow]) (by decide)

/-- C10: the Articles tab renders at most the first 20 rows of the
filtered table — the rendered list is the 20-prefix, its length never
exceeds 20, and position `i` shows the filtered table's row `i` for
`i < 20` and nothing at all for `i ≥ 20`. -/
theorem C10_articles_tab_at_most_20 (f : List Article) :
    articlesTabRows f = f.take 20 ∧
    (articlesTabRows f).length ≤ 20 ∧
    ∀ i : Nat, (articlesTabRows f).get? i =
      if i < 20 then f.get? i else none := by
  refine ⟨rfl, ?_, ?_⟩
  · simp [articlesTabRows, List.length_take]
  · intro i
    by_cases h : i < 20
    · simp only [articlesTabRows, if_pos h]
      exact List.get?_take h
    · have hlen : (f.take 20).length ≤ i := by
        have := List.length_take 20 f
        omega
      simp only [articlesTabRows, if_neg h]
      exact List.get?_eq_none.mpr hlen

/-- A fetch outcome that always succeeds with the one-row table, used to
instantiate the TTL theorem. -/
def fetchAlwaysOk : Nat → Except String (List Article) :=
  fun _ => .ok [stormRow]

/-- A fetch outcome that succeeds at time 0 and fails afterwards, used to
exercise the failed-refresh path. -/
def fetchFailsLater : Nat → Except String (List Article) :=
  fun n => if n = 0 then .ok [stormRow] else .error "connection refused"

/-- C1: a cache populated by a successful fetch at time `T` serves every
call at a time `t` with `t - T < 300` from the cache — the same table the
fetch produced, no new fetch, state unchanged (so the property holds for
every such call, not just the first) — and a call at a time `t` with
`t - T > 300` executes the body again, issuing exactly one new remote
fetch (one call to `cache_get` evaluates `fetch` at most once by
construction of the model). -/
theorem C1_ttl_respect (fetch : Nat → Except String (List Article))
    (T : Nat) (rows : List Article) (hfetch : fetch T = .ok rows) :
    (cache_get fetch ⟨none⟩ T).value = rows ∧
    (cache_get fetch ⟨none⟩ T).fetched = true ∧
    (∀ t, T ≤ t → t - T < 300 →
      cache_get fetch (cache_get fetch ⟨none⟩ T).state t =
        ⟨rows, (cache_get fetch ⟨none⟩ T).state, false, false⟩) ∧
    (∀ t, t - T > 300 →
      (cache_get fetch (cache_get fetch ⟨none⟩ T).state t).fetched = true) := by
  have h0 : cache_get fetch ⟨none⟩ T = ⟨rows, ⟨some (rows, T)⟩, true, false⟩ := by
    simp [cache_get, load_data, hfetch]
  refine ⟨by rw [h0], by rw [h0], ?_, ?_⟩
  · intro t _hle hlt
    rw [h0]
    simp only [cache_get, TTL]
    rw [if_pos hlt]
  · intro t hgt
    rw [h0]
    simp only [cache_get, TTL]
    rw [if_neg (by omega)]

/-- C1 witness: populate at time 0, hit at time 299, miss at time 302. -/
theorem C1_ttl_respect_witness :
    (cache_get fetchAlwaysOk ⟨none⟩ 0).value = [stormRow] ∧
    cache_get fetchAlwaysOk (cache_get fetchAlwaysOk ⟨none⟩ 0).state 299 =
      ⟨[stormRow], (cache_get fetchAlwaysOk ⟨none⟩ 0).state, false, false⟩ ∧
    (cache_get fetchAlwaysOk (cache_get fetchAlwaysOk ⟨none⟩ 0).state 302).fetched
      = true := by
  have h := C1_ttl_respect fetchAlwaysOk 0 [stormRow] rfl
  exact ⟨h.1, h.2.2.1 299 (by decide) (by decide), h.2.2.2 302 (by decide)⟩

/-- C2 counterexample: populate the cache at time 0 with the one-row table,
let the fetch fail at time 301 — the refresh returns the empty table, not
the previous entry as the claim asserts: `load_data` catches the failure
and returns an empty dataframe, and the expired cache entry is not served
again. -/
theorem C2_counterexample :
    (cache_get fetchFailsLater ⟨none⟩ 0).value = [stormRow] ∧
    (cache_get fetchFailsLater (cache_get fetchFailsLater ⟨none⟩ 0).state 301).value
      = [] ∧
    (cache_get fetchFailsLater (cache_get fetchFailsLater ⟨none⟩ 0).state 301).value
      ≠ [stormRow] := by
  decide

/-- C2 (amended): whenever a call re-executes `load_data` and the remote
fetch fails, the call returns the empty table — regardless of whether a
previous entry exists — and the error is displayed once via `st.error`;
the returned table itself carries no error indicator and equals the table
of a store with no articles. -/
theorem C2_failed_refresh_returns_empty
    (fetch : Nat → Except String (List Article)) (s : CacheState)
    (now : Nat) (e : String) (hf : fetch now = .error e)
    (hrefresh : (cache_get fetch s now).fetched = true) :
    (cache_get fetch s now).value = [] ∧
    (cache_get fetch s now).errorShown = true := by
  rcases s with ⟨entry⟩
  cases entry with
  | none => simp [cache_get, load_data, hf]
  | some p =>
      obtain ⟨v, t⟩ := p
      by_cases h : now - t < TTL
      · exact absurd hrefresh (by simp [cache_get, h])
      · simp [cache_get, h, load_data, hf]

/-- C2 witness: an expired entry with a failing fetch at time 301. -/
theorem C2_failed_refresh_returns_empty_witness :
    (cache_get fetchFailsLater ⟨some ([stormRow], 0)⟩ 301).value = [] ∧
    (cache_get fetchFailsLater ⟨some ([stormRow], 0)⟩ 301).errorShown = true :=
  C2_failed_refresh_returns_empty fetchFailsLater ⟨some ([stormRow], 0)⟩ 301
    "connection refused" rfl (by decide)

/-- C3: after the cache is cleared (the refresh button's
`st.cache_data.clear()`), the next call executes the body and issues a
fetch, whatever the previous state was — in particular even when its entry
was captured less than 300 seconds ago. -/
theorem C3_invalidate_forces_fetch (fetch : Nat → Except String (List Article))
    (s : CacheState) (now : Nat) :
    (cache_get fetch (cache_clear s) now).fetched = true := by
  simp [cache_get, cache_clear]

/-- C9 counterexample: a file whose header has only `title` and `source` —
missing the required `topic` and `sentiment` columns — is parsed
successfully into a table, with no ParseError surfaced: the loader is a
bare `pd.read_csv` call and validates no column names. -/
theorem C9_counterexample :
    read_csv ["title,source", "Storm hits coast,BBC"] =
      .ok [[("title", "Storm hits coast"), ("source", "BBC")]] ∧
    "topic" ∉ splitComma "title,source" ∧
    "sentiment" ∉ splitComma "title,source" := by
  refine ⟨rfl, by decide, by decide⟩

/-- C9 (amended): the loader performs no required-column validation — any
file whose data rows have at most as many fields as the header loads
successfully, whatever columns the header names (only structurally
malformed rows, with more fields than the header, raise a parse error). -/
theorem C9_no_column_validation (header : String) (rows : List String)
    (h : ∀ line ∈ rows, (splitComma line).length ≤ (splitComma header).length) :
    parseSucceeds (read_csv (header :: rows)) = true := by
  simp only [read_csv]
  induction rows with
  | nil => rfl
  | cons a l ih =>
      have ha : ¬ ((splitComma header).length < (splitComma a).length) := by
        have := h a (List.mem_cons_self a l)
        omega
      have ih2 := ih fun line hl => h line (List.mem_cons_of_mem a hl)
      simp only [parseRows]
      rw [if_neg ha]
      cases hp : parseRows (splitComma header) l with
      | ok t => simp [hp, parseSucceeds]
      | error e =>
          rw [hp] at ih2
          exact absurd ih2 (by simp [parseSucceeds])

/-- C9 witness: the amended theorem applied to the two-column file. -/
theorem C9_no_column_validation_witness :
    parseSucceeds (read_csv ["title,source", "Storm hits coast,BBC"]) = true :=
  C9_no_column_validation "title,source" ["Storm hits coast,BBC"] (by decide)
